import Mathlib

/-!
Verification development for the aws-cicd provisioning scripts
(`create_pipeline.py`, `create_infrastructure.py`, `deploy_contact_form.py`).

The scripts are linear sequences of calls to a remote control plane.  We give
a shallow embedding: each remote call's outcome is either an explicit input
(an `Except` value in an environment record) or is produced by a small model
of the remote service's documented behaviour; the scripts' own branching,
string matching and data extraction are translated directly from the source.
-/

set_option autoImplicit false

/-- A Python value as produced by `json.loads` (plus `bytes`, which
`get_secret` can return from a `SecretBinary` payload).  Floats are not
modelled; none of the payloads under study contain them. -/
inductive PyVal where
  | null
  | bool (b : Bool)
  | int (n : Int)
  | str (s : String)
  | list (xs : List PyVal)
  | obj (kvs : List (String × PyVal))
  | bytes (bs : List Nat)
deriving Repr

/-- Skip JSON whitespace, as the Python decoder does between tokens. -/
def skipWs : List Char → List Char
  | c :: cs => if c = ' ' ∨ c = '\t' ∨ c = '\n' ∨ c = '\r' then skipWs cs else c :: cs
  | [] => []

/-- Decode one JSON string-escape character (the subset without \uXXXX). -/
def unescape (c : Char) : Option Char :=
  if c = '"' then some '"'
  else if c = '\\' then some '\\'
  else if c = '/' then some '/'
  else if c = 'n' then some '\n'
  else if c = 't' then some '\t'
  else if c = 'r' then some '\r'
  else if c = 'b' then some '\x08'
  else if c = 'f' then some '\x0C'
  else none

/-- Parse the body of a JSON string literal (after the opening quote),
returning the decoded characters and the input after the closing quote.
Python's `json.loads` runs in strict mode: an unescaped control character
(code point below 0x20) inside a string raises `JSONDecodeError`. -/
def parseStrBody : List Char → Option (List Char × List Char)
  | [] => none
  | '"' :: rest => some ([], rest)
  | '\\' :: e :: rest => do
      let c ← unescape e
      let (s, rest2) ← parseStrBody rest
      pure (c :: s, rest2)
  | '\\' :: [] => none
  | c :: rest =>
      if c.toNat < 32 then none
      else do
        let (s, rest2) ← parseStrBody rest
        pure (c :: s, rest2)

/-- Parse a run of decimal digits into a natural number. -/
def parseDigits : Nat → List Char → Option (Nat × List Char)
  | acc, c :: cs =>
      if c.isDigit then parseDigits (acc * 10 + (c.toNat - '0'.toNat)) cs
      else some (acc, c :: cs)
  | acc, [] => some (acc, [])

/-- Parse a JSON integer numeral (the part after any minus sign).  JSON
forbids leading zeros: a numeral starting with '0' is exactly "0", so in
"05" only the "0" is consumed and the stray "5" makes the surrounding
parse fail, as it does in Python. -/
def parseNumeral : List Char → Option (Nat × List Char)
  | '0' :: rest => some (0, rest)
  | c :: rest => if c.isDigit then parseDigits 0 (c :: rest) else none
  | [] => none

mutual

/-- Recursive-descent JSON value parser, fuel-indexed for termination.
Models the grammar accepted by Python's `json.loads` (integers only). -/
def parseVal : Nat → List Char → Option (PyVal × List Char)
  | 0, _ => none
  | fuel + 1, cs =>
    match skipWs cs with
    | '{' :: rest =>
        (match skipWs rest with
         | '}' :: rest2 => some (PyVal.obj [], rest2)
         | rest2 => do
             let (kvs, rest3) ← parseMembers fuel rest2
             pure (PyVal.obj kvs, rest3))
    | '[' :: rest =>
        (match skipWs rest with
         | ']' :: rest2 => some (PyVal.list [], rest2)
         | rest2 => do
             let (xs, rest3) ← parseElems fuel rest2
             pure (PyVal.list xs, rest3))
    | '"' :: rest => do
        let (s, rest2) ← parseStrBody rest
        pure (PyVal.str (String.mk s), rest2)
    | 't' :: 'r' :: 'u' :: 'e' :: rest => some (PyVal.bool true, rest)
    | 'f' :: 'a' :: 'l' :: 's' :: 'e' :: rest => some (PyVal.bool false, rest)
    | 'n' :: 'u' :: 'l' :: 'l' :: rest => some (PyVal.null, rest)
    | '-' :: rest => do
        let (n, rest2) ← parseNumeral rest
        pure (PyVal.int (-(n : Int)), rest2)
    | c :: rest =>
        if c.isDigit then do
          let (n, rest2) ← parseNumeral (c :: rest)
          pure (PyVal.int (n : Int), rest2)
        else none
    | [] => none

/-- Parse comma-separated array elements up to the closing bracket. -/
def parseElems : Nat → List Char → Option (List PyVal × List Char)
  | 0, _ => none
  | fuel + 1, cs => do
      let (v, rest) ← parseVal fuel cs
      match skipWs rest with
      | ',' :: rest2 => do
          let (xs, rest3) ← parseElems fuel rest2
          pure (v :: xs, rest3)
      | ']' :: rest2 => pure ([v], rest2)
      | _ => none

/-- Parse comma-separated object members up to the closing brace. -/
def parseMembers : Nat → List Char → Option (List (String × PyVal) × List Char)
  | 0, _ => none
  | fuel + 1, cs =>
      match skipWs cs with
      | '"' :: rest => do
          let (k, rest2) ← parseStrBody rest
          match skipWs rest2 with
          | ':' :: rest3 => do
              let (v, rest4) ← parseVal fuel rest3
              match skipWs rest4 with
              | ',' :: rest5 => do
                  let (kvs, rest6) ← parseMembers fuel rest5
                  pure ((String.mk k, v) :: kvs, rest6)
              | '}' :: rest5 => pure ([(String.mk k, v)], rest5)
              | _ => none
          | _ => none
      | _ => none

end

/-- Model of Python's `json.loads`: parse a complete JSON document,
`none` standing for a raised `json.JSONDecodeError`. -/
def json_loads (s : String) : Option PyVal :=
  match parseVal (s.length + 1) s.data with
  | some (v, rest) => if skipWs rest = [] then some v else none
  | none => none

/-- Model of Python's `dict.get(key, default)`.  `json.loads` builds its dict
left to right with later duplicate keys overwriting earlier ones, so lookup
takes the last matching entry. -/
def dict_get (kvs : List (String × PyVal)) (key : String) (dflt : PyVal) : PyVal :=
  match kvs.reverse.find? (fun p => p.1 == key) with
  | some p => p.2
  | none => dflt

/-- The `get_secret_value` response: `SecretString` present, or only
`SecretBinary` present. -/
inductive SecretValueResponse where
  | withSecretString (s : String)
  | withSecretBinary (bs : List Nat)

/-- `get_secret` from `create_pipeline.py`, given the outcome of the
`get_secret_value` call (`Except.error` standing for a raised exception).
The inner `try` catches only `json.JSONDecodeError`; calling `.get` on a
non-dict decode result raises `AttributeError`, which the outer catch-all
turns into `None`. -/
def get_secret (resp : Except String SecretValueResponse) : Option PyVal :=
  match resp with
  | .error _ => none
  | .ok (.withSecretBinary bs) => some (PyVal.bytes bs)
  | .ok (.withSecretString secret) =>
      match json_loads secret with
      | some (PyVal.obj kvs) => some (dict_get kvs "github_token" (PyVal.str secret))
      | some _ => none
      | none => some (PyVal.str secret)

/-- Boolean substring test on character lists. -/
def containsSubList (pat : List Char) : List Char → Bool
  | [] => pat.isEmpty
  | c :: cs => pat.isPrefixOf (c :: cs) || containsSubList pat cs

/-- `strContains s pat` models Python's `pat in s` on strings. -/
def strContains (s pat : String) : Bool :=
  containsSubList pat.data s.data

/-- Outcome classification of a reconciliation run, read off the print path
taken by the source (`created` / `updated` / `unchanged` / `fatal`). -/
inductive Outcome where
  | created
  | updated
  | unchanged
  | fatal
deriving DecidableEq, Repr

/-- One entry of the `describe_stack_resources` response. -/
structure StackResource where
  ResourceType : String
  LogicalResourceId : String
  PhysicalResourceId : String
deriving DecidableEq, Repr

/-- Outcomes of the four CloudFormation calls made by
`create_or_update_cf_stack` (`Except.error` = raised `ClientError`, with the
exception's message text; a waiter failure is folded into its call's
outcome). -/
structure CFCalls where
  describe_stacks : Except String Unit
  update_stack : Except String Unit
  create_stack : Except String Unit
  describe_stack_resources : Except String (List StackResource)

/-- Model of Python dict assignment `d[k] = v`: overwrite in place if the
key exists, else append. -/
def dict_set (d : List (String × String)) (k v : String) : List (String × String) :=
  if d.any (fun p => p.1 == k) then d.map (fun p => if p.1 == k then (k, v) else p)
  else d ++ [(k, v)]

/-- The role-map extraction loop of `create_or_update_cf_stack`
(lines 53–56): `role_arns[LogicalResourceId] = PhysicalResourceId` for each
resource whose type is `AWS::IAM::Role`. -/
def extract_role_arns (resources : List StackResource) : List (String × String) :=
  resources.foldl
    (fun acc res =>
      if res.ResourceType == "AWS::IAM::Role" then
        dict_set acc res.LogicalResourceId res.PhysicalResourceId
      else acc)
    []

/-- The post-reconcile resource fetch (lines 50–60): describe the stack's
resources and extract the role map; a raised exception yields `None`. -/
def fetch_roles (env : CFCalls) : Option (List (String × String)) :=
  match env.describe_stack_resources with
  | .ok resources => some (extract_role_arns resources)
  | .error _ => none

/-- The update branch (lines 20–35): an update error whose message contains
"No updates are to be performed" is benign (`unchanged`); any other update
error returns `None`. -/
def update_path (env : CFCalls) : Outcome × Option (List (String × String)) :=
  match env.update_stack with
  | .ok _ => (Outcome.updated, fetch_roles env)
  | .error e =>
      if strContains e "No updates are to be performed" then
        (Outcome.unchanged, fetch_roles env)
      else (Outcome.fatal, none)

/-- The create branch (lines 36–48): any create error returns `None`. -/
def create_path (env : CFCalls) : Outcome × Option (List (String × String)) :=
  match env.create_stack with
  | .ok _ => (Outcome.created, fetch_roles env)
  | .error _ => (Outcome.fatal, none)

/-- `create_or_update_cf_stack` from `create_infrastructure.py`, instrumented
with the `Outcome` of the branch taken.  The probe's `ClientError` is
classified by substring: "does not exist" selects the create path, anything
else prints and returns `None` (lines 9–18). -/
def create_or_update_cf_stack (env : CFCalls) : Outcome × Option (List (String × String)) :=
  match env.describe_stacks with
  | .ok _ => update_path env
  | .error e =>
      if strContains e "does not exist" then create_path env
      else (Outcome.fatal, none)

/-! Deterministic model of the remote CloudFormation service, used for the
two-run (idempotence) scenarios.  The remote stack state is `Option String`,
the template body of the stack if it exists. -/

/-- `describe_stacks` succeeds iff the stack exists; otherwise it raises a
`ClientError` whose message contains "does not exist". -/
def cf_describe_stacks (st : Option String) : Except String Unit :=
  match st with
  | some _ => .ok ()
  | none => .error "Stack with id MyCICDProjectStack does not exist"

/-- `update_stack` with an identical template raises a `ClientError` whose
message is "No updates are to be performed."; otherwise it succeeds. -/
def cf_update_stack (st : Option String) (tb : String) : Except String Unit :=
  match st with
  | some t => if t == tb then .error "No updates are to be performed." else .ok ()
  | none => .error "Stack with id MyCICDProjectStack does not exist"

/-- The call outcomes `create_or_update_cf_stack` observes when run against
the service model in state `st` with template `tb`; `rs` is the stack's
resource list reported after the operation. -/
def cf_service_env (st : Option String) (tb : String) (rs : List StackResource) : CFCalls :=
  { describe_stacks := cf_describe_stacks st
    update_stack := cf_update_stack st tb
    create_stack := .ok ()
    describe_stack_resources := .ok rs }

/-- One reconcile run against the service model: the new remote state (the
stack now holds template `tb`, whether created, updated or unchanged),
the outcome, and the returned role map. -/
def reconcile_stack (st : Option String) (tb : String) (rs : List StackResource) :
    Option String × Outcome × Option (List (String × String)) :=
  let r := create_or_update_cf_stack (cf_service_env st tb rs)
  (some tb, r.1, r.2)

/-! IAM role reconciliation.  Remote role state is `Option String`: the ARN
of the role if it exists.  `newArn` is the ARN the service assigns on
creation. -/

/-- `iam.get_role`: `Except.error` stands for `NoSuchEntityException`. -/
def iam_get_role (st : Option String) : Except Unit String :=
  match st with
  | some arn => .ok arn
  | none => .error ()

/-- `ensure_codebuild_role` from `create_pipeline.py` (lines 23–61): probe
with `get_role`; on `NoSuchEntityException`, create the role and attach the
two managed policies (policy attachment does not affect role existence and
is not modelled).  Returns (new remote state, returned ARN, outcome). -/
def ensure_codebuild_role (st : Option String) (newArn : String) :
    Option String × String × Outcome :=
  match iam_get_role st with
  | .ok arn => (st, arn, Outcome.unchanged)
  | .error _ => (some newArn, newArn, Outcome.created)

/-- `iam.create_role`: raises `EntityAlreadyExistsException` iff the role
exists. -/
def iam_create_role (st : Option String) (newArn : String) : Except Unit String :=
  match st with
  | none => .ok newArn
  | some _ => .error ()

/-- The IAM role setup block of `deploy_contact_form.py` (lines 33–42):
attempt `create_role`; on `EntityAlreadyExistsException`, fall back to
`get_role`.  Returns (new remote state, role ARN in hand, outcome). -/
def lambda_role_setup (st : Option String) (newArn : String) :
    Option String × String × Outcome :=
  match iam_create_role st newArn with
  | .ok arn => (some newArn, arn, Outcome.created)
  | .error _ =>
      match iam_get_role st with
      | .ok arn => (st, arn, Outcome.unchanged)
      | .error _ => (st, newArn, Outcome.fatal)

/-! Lambda function deployment (`deploy_contact_form.py` lines 92–117). -/

/-- Remote state of the Lambda function. -/
structure LambdaFn where
  Runtime : String
  Role : String
  Handler : String
  Code : List Nat
  Timeout : Nat
  Environment : List (String × String)
deriving DecidableEq, Repr

/-- The Lambda API calls the deploy block can make. -/
inductive LambdaCall where
  | create_function
  | update_function_code
  | update_function_configuration
deriving DecidableEq, Repr

/-- `update_function_code`: replaces the function's code only. -/
def svc_update_function_code (f : LambdaFn) (code : List Nat) : LambdaFn :=
  { f with Code := code }

/-- `update_function_configuration` called with an `Environment` argument:
the supplied variables replace the function's environment wholesale (the
remote service does not merge); other configuration fields are untouched. -/
def svc_update_function_configuration (f : LambdaFn) (envVars : List (String × String)) : LambdaFn :=
  { f with Environment := envVars }

/-- The create-or-update Lambda block: attempt `create_function`; on
`ResourceConflictException` (raised iff the function already exists),
update code and configuration as two separate calls.  Returns the new
remote state and the trace of calls made. -/
def deploy_lambda (st : Option LambdaFn) (roleArn : String) (code : List Nat)
    (envVars : List (String × String)) : Option LambdaFn × List LambdaCall :=
  match st with
  | none =>
      (some { Runtime := "python3.11", Role := roleArn,
              Handler := "lambda_function.lambda_handler",
              Code := code, Timeout := 10, Environment := envVars },
       [LambdaCall.create_function])
  | some f0 =>
      let f1 := svc_update_function_code f0 code
      let f2 := svc_update_function_configuration f1 envVars
      (some f2,
       [LambdaCall.create_function, LambdaCall.update_function_code,
        LambdaCall.update_function_configuration])

/-! API Gateway provisioning sequence (`deploy_contact_form.py`
lines 122–156): straight-line code with a fixed call order. -/

/-- The API Gateway / Lambda-permission calls of the provisioning block. -/
inductive ApiCall where
  | create_api
  | create_integration
  | create_route
  | create_deployment
  | create_stage
  | add_permission
deriving DecidableEq, Repr

/-- The order in which the script issues the API provisioning calls
(source lines 124, 131, 139, 146, 147, 150). -/
def api_call_order : List ApiCall :=
  [ApiCall.create_api, ApiCall.create_integration, ApiCall.create_route,
   ApiCall.create_deployment, ApiCall.create_stage, ApiCall.add_permission]

/-! Pipeline structure and topology validation. -/

/-- A pipeline action: name plus declared input/output artifact names. -/
structure PipelineAction where
  name : String
  inputArtifacts : List String
  outputArtifacts : List String
deriving DecidableEq, Repr

/-- A pipeline stage: name plus its ordered actions. -/
structure PipelineStage where
  name : String
  actions : List PipelineAction
deriving DecidableEq, Repr

/-- The pipeline hardcoded in `create_codepipeline` (artifact topology
only): Source produces `SourceArtifact`, Build consumes it and produces
`BuildArtifact`, Deploy consumes `BuildArtifact`. -/
def pipeline_stages : List PipelineStage :=
  [{ name := "Source",
     actions := [{ name := "Source", inputArtifacts := [],
                   outputArtifacts := ["SourceArtifact"] }] },
   { name := "Build",
     actions := [{ name := "Build", inputArtifacts := ["SourceArtifact"],
                   outputArtifacts := ["BuildArtifact"] }] },
   { name := "Deploy",
     actions := [{ name := "Deploy", inputArtifacts := ["BuildArtifact"],
                   outputArtifacts := [] }] }]

/-- The same pipeline with the Build stage declaring the never-produced
input artifact "Missing". -/
def pipeline_stages_missing : List PipelineStage :=
  [{ name := "Source",
     actions := [{ name := "Source", inputArtifacts := [],
                   outputArtifacts := ["SourceArtifact"] }] },
   { name := "Build",
     actions := [{ name := "Build", inputArtifacts := ["Missing"],
                   outputArtifacts := ["BuildArtifact"] }] },
   { name := "Deploy",
     actions := [{ name := "Deploy", inputArtifacts := ["BuildArtifact"],
                   outputArtifacts := [] }] }]

/-- No duplicates among a list of names. -/
def nodupNames : List String → Bool
  | [] => true
  | x :: rest => !(rest.contains x) && nodupNames rest

/-- Every action's inputs are drawn from the outputs of earlier actions. -/
def artifacts_chain : List String → List PipelineAction → Bool
  | _, [] => true
  | avail, a :: rest =>
      a.inputArtifacts.all (fun i => avail.contains i)
        && artifacts_chain (avail ++ a.outputArtifacts) rest

/-- Modelled from the spec: the stage-chain validator of §4.3, which is not
present in the source.  "Validate that every action's declared input
artifacts were produced as output artifacts by an earlier action in the
same stage sequence, and that stage names/action names are unique within
their scope. Fails fast with a descriptive InvalidPipelineTopology error." -/
def validate_pipeline (stages : List PipelineStage) : Except String Unit :=
  if nodupNames (stages.map (fun st => st.name))
      && stages.all (fun st => nodupNames (st.actions.map (fun a => a.name)))
      && artifacts_chain [] (stages.map (fun st => st.actions)).flatten
  then .ok ()
  else .error "InvalidPipelineTopology"

/-- Modelled from the spec: `create_codepipeline` preceded by the §4.3
validator, which rejects an invalid topology "before any remote call is
made".  Returns the result and the trace of remote calls issued. -/
def create_codepipeline_validated (stages : List PipelineStage) :
    Except String Unit × List String :=
  match validate_pipeline stages with
  | .error e => (.error e, [])
  | .ok _ => (.ok (), ["create_pipeline"])

/-! The `__main__` sequence of `create_pipeline.py` (lines 146–238). -/

/-- Python truthiness on a `PyVal` (`not x`). -/
def py_falsy : PyVal → Bool
  | PyVal.null => true
  | PyVal.bool b => !b
  | PyVal.int n => n == 0
  | PyVal.str s => s.isEmpty
  | PyVal.list xs => xs.isEmpty
  | PyVal.obj kvs => kvs.isEmpty
  | PyVal.bytes bs => bs.isEmpty

/-- The guard `if not github_token:` of the main sequence: true when
`get_secret` returned `None` or a falsy value. -/
def secret_missing (r : Option PyVal) : Bool :=
  match r with
  | none => true
  | some v => py_falsy v

/-- The steps of the `__main__` sequence. -/
inductive MainStep where
  | ensure_role
  | get_secret_step
  | exit_1
  | create_bucket
  | create_application
  | create_project
  | create_deployment_group
  | create_pipeline_step
deriving DecidableEq, Repr

/-- Outcomes of the remote calls made by the `__main__` sequence
(`Except.error` = raised exception, caught where the source has a
`try`/`except`). -/
structure MainEnv where
  codebuild_role_state : Option String
  codebuild_role_new_arn : String
  secret_response : Except String SecretValueResponse
  create_bucket : Except String Unit
  create_application : Except String Unit
  create_project : Except String Unit
  create_deployment_group : Except String Unit
  create_pipeline_call : Except String Unit

/-- Whether a modelled call succeeded (only the printed message depends on
this; control flow does not, because each call sits in its own
`try`/`except`). -/
def step_ok : Except String Unit → Bool
  | .ok _ => true
  | .error _ => false

/-- The `__main__` sequence as a trace of (step, succeeded) pairs: ensure
the CodeBuild role, fetch the secret; if the token is falsy, print and
`exit(1)`; otherwise attempt bucket, application, project, deployment
group and pipeline creation in order, each failure caught and logged
without halting. -/
def main_trace (env : MainEnv) : List (MainStep × Bool) :=
  let tok := get_secret env.secret_response
  if secret_missing tok then
    [(MainStep.ensure_role, true), (MainStep.get_secret_step, false),
     (MainStep.exit_1, true)]
  else
    [(MainStep.ensure_role, true), (MainStep.get_secret_step, true),
     (MainStep.create_bucket, step_ok env.create_bucket),
     (MainStep.create_application, step_ok env.create_application),
     (MainStep.create_project, step_ok env.create_project),
     (MainStep.create_deployment_group, step_ok env.create_deployment_group),
     (MainStep.create_pipeline_step, step_ok env.create_pipeline_call)]

example : json_loads "5" = some (PyVal.int 5) := by rfl
example : json_loads "[1,2]" = some (PyVal.list [PyVal.int 1, PyVal.int 2]) := by rfl
example : json_loads "\"abc\"" = some (PyVal.str "abc") := by rfl
example : json_loads "raw-string" = none := by rfl
example : json_loads "\x7b\"github_token\":\"abc\"\x7d"
    = some (PyVal.obj [("github_token", PyVal.str "abc")]) := by rfl
example : get_secret (.ok (.withSecretString "\x7b\"github_token\":\"abc\"\x7d"))
    = some (PyVal.str "abc") := by rfl
example : get_secret (.ok (.withSecretString "raw-string"))
    = some (PyVal.str "raw-string") := by rfl
example : get_secret (.ok (.withSecretString "\x7b\"a\":\"b\"\x7d"))
    = some (PyVal.str "\x7b\"a\":\"b\"\x7d") := by rfl
example : get_secret (.ok (.withSecretString "5")) = none := by rfl
example : json_loads "05" = none := by rfl
example : json_loads "-05" = none := by rfl
example : json_loads "[01]" = none := by rfl
example : json_loads "-0" = some (PyVal.int 0) := by rfl
example : json_loads "\"a\nb\"" = none := by rfl
example : json_loads "\"a\\nb\"" = some (PyVal.str "a\nb") := by rfl
example : get_secret (.ok (.withSecretString "05")) = some (PyVal.str "05") := by rfl
example : get_secret (.ok (.withSecretString "\"a\nb\""))
    = some (PyVal.str "\"a\nb\"") := by rfl

/-- If no entry of the dict has the given key, `dict.get` returns the
default. -/
theorem dict_get_of_no_key (kvs : List (String × PyVal)) (key : String) (d : PyVal)
    (h : ∀ p ∈ kvs, p.1 ≠ key) : dict_get kvs key d = d := by
  have hf : kvs.reverse.find? (fun p => p.1 == key) = none := by
    apply List.find?_eq_none.mpr
    intro p hp
    simpa using h p (List.mem_reverse.mp hp)
  simp [dict_get, hf]

/-- Assigning a fresh key to a dict appends the pair. -/
theorem dict_set_append (d : List (String × String)) (k v : String)
    (h : ∀ p ∈ d, p.1 ≠ k) : dict_set d k v = d ++ [(k, v)] := by
  have hna : d.any (fun p => p.1 == k) = false := by
    rw [List.any_eq_false]
    intro p hp
    simpa using h p hp
  simp [dict_set, hna]

/-- Accumulator-generalised description of the role-extraction fold. -/
theorem extract_role_arns_go (rs : List StackResource) :
    ∀ acc : List (String × String),
      (∀ r ∈ rs, r.ResourceType = "AWS::IAM::Role" →
        ∀ p ∈ acc, p.1 ≠ r.LogicalResourceId) →
      ((rs.filter (fun r => r.ResourceType == "AWS::IAM::Role")).map
          (fun r => r.LogicalResourceId)).Nodup →
      rs.foldl
          (fun acc res =>
            if res.ResourceType == "AWS::IAM::Role" then
              dict_set acc res.LogicalResourceId res.PhysicalResourceId
            else acc)
          acc
        = acc ++ (rs.filter (fun r => r.ResourceType == "AWS::IAM::Role")).map
            (fun r => (r.LogicalResourceId, r.PhysicalResourceId)) := by
  induction rs with
  | nil => intro acc _ _; simp
  | cons r rest ih =>
      intro acc hdisj hnd
      by_cases hr : r.ResourceType = "AWS::IAM::Role"
      · have hr' : (r.ResourceType == "AWS::IAM::Role") = true := by simpa using hr
        have hfre : ∀ p ∈ acc, p.1 ≠ r.LogicalResourceId :=
          hdisj r (List.mem_cons_self r rest) hr
        have hfilter :
            (r :: rest).filter (fun r => r.ResourceType == "AWS::IAM::Role")
              = r :: rest.filter (fun r => r.ResourceType == "AWS::IAM::Role") :=
          List.filter_cons_of_pos hr'
        rw [List.foldl_cons]
        have hacc : (if (r.ResourceType == "AWS::IAM::Role") = true then
              dict_set acc r.LogicalResourceId r.PhysicalResourceId else acc)
            = acc ++ [(r.LogicalResourceId, r.PhysicalResourceId)] := by
          rw [if_pos hr', dict_set_append acc _ _ hfre]
        rw [hacc]
        have hnd2 := hnd
        rw [hfilter, List.map_cons, List.nodup_cons] at hnd2
        have hknotin := hnd2.1
        have hdisj2 : ∀ r2 ∈ rest, r2.ResourceType = "AWS::IAM::Role" →
            ∀ p ∈ acc ++ [(r.LogicalResourceId, r.PhysicalResourceId)],
              p.1 ≠ r2.LogicalResourceId := by
          intro r2 hr2 hrole2 p hp
          rcases List.mem_append.mp hp with hpa | hpb
          · exact hdisj r2 (List.mem_cons_of_mem r hr2) hrole2 p hpa
          · have hpeq : p = (r.LogicalResourceId, r.PhysicalResourceId) := by
              simpa using hpb
            subst hpeq
            intro hcontra
            apply hknotin
            refine List.mem_map.mpr ⟨r2, ?_, hcontra.symm⟩
            exact List.mem_filter.mpr ⟨hr2, by simpa using hrole2⟩
        rw [ih (acc ++ [(r.LogicalResourceId, r.PhysicalResourceId)]) hdisj2 hnd2.2]
        rw [hfilter, List.map_cons, List.append_assoc]
        rfl
      · have hr' : (r.ResourceType == "AWS::IAM::Role") = false := by simpa using hr
        have hfilter :
            (r :: rest).filter (fun r => r.ResourceType == "AWS::IAM::Role")
              = rest.filter (fun r => r.ResourceType == "AWS::IAM::Role") :=
          List.filter_cons_of_neg (by simp [hr'])
        rw [List.foldl_cons]
        have hacc : (if (r.ResourceType == "AWS::IAM::Role") = true then
              dict_set acc r.LogicalResourceId r.PhysicalResourceId else acc)
            = acc := by
          rw [if_neg (by simp [hr'])]
        rw [hacc]
        rw [hfilter] at hnd ⊢
        exact ih acc (fun r2 hr2 => hdisj r2 (List.mem_cons_of_mem r hr2)) hnd

/-- C1 (amended): `get_secret` returns `"abc"` for the payload
`{"github_token":"abc"}`; returns the raw string unchanged when JSON
decoding fails; and for a payload that decodes as an object without the
`github_token` key, returns the raw payload string unchanged (the
`.get` default), not the decoded object. -/
theorem get_secret_normalization :
    get_secret (.ok (.withSecretString "\x7b\"github_token\":\"abc\"\x7d"))
        = some (PyVal.str "abc")
    ∧ get_secret (.ok (.withSecretString "raw-string"))
        = some (PyVal.str "raw-string")
    ∧ ∀ s kvs, json_loads s = some (PyVal.obj kvs) →
        (∀ p ∈ kvs, p.1 ≠ "github_token") →
        get_secret (.ok (.withSecretString s)) = some (PyVal.str s) := by
  refine ⟨rfl, rfl, ?_⟩
  intro s kvs h hk
  simp [get_secret, h, dict_get_of_no_key kvs _ _ hk]

/-- C1 witness: the object payload `{"a":"b"}` lacks the key, and the raw
string comes back. -/
theorem get_secret_normalization_witness :
    get_secret (.ok (.withSecretString "\x7b\"a\":\"b\"\x7d"))
      = some (PyVal.str "\x7b\"a\":\"b\"\x7d") :=
  get_secret_normalization.2.2 "\x7b\"a\":\"b\"\x7d" [("a", PyVal.str "b")] rfl
    (by intro p hp; simp at hp; subst hp; decide)

/-- C1 counterexample: for the payload `{"a":"b"}` — valid JSON object
without the named key — the code returns the raw string, which is not the
structured-decode result (the decoded object). -/
theorem get_secret_counterexample :
    json_loads "\x7b\"a\":\"b\"\x7d" = some (PyVal.obj [("a", PyVal.str "b")])
    ∧ get_secret (.ok (.withSecretString "\x7b\"a\":\"b\"\x7d"))
        = some (PyVal.str "\x7b\"a\":\"b\"\x7d")
    ∧ get_secret (.ok (.withSecretString "\x7b\"a\":\"b\"\x7d"))
        ≠ some (PyVal.obj [("a", PyVal.str "b")]) := by
  refine ⟨rfl, rfl, ?_⟩
  intro h
  rw [show get_secret (.ok (.withSecretString "\x7b\"a\":\"b\"\x7d"))
      = some (PyVal.str "\x7b\"a\":\"b\"\x7d") from rfl] at h
  simp at h

/-- C9: any payload that decodes as valid JSON but not as an object makes
`get_secret` return `None` (the `.get` attribute error is swallowed by the
outer catch-all), not the raw string. -/
theorem get_secret_non_object_none :
    ∀ s v, json_loads s = some v → (∀ kvs, v ≠ PyVal.obj kvs) →
      get_secret (.ok (.withSecretString s)) = none := by
  intro s v h hv
  cases v with
  | obj kvs => exact absurd rfl (hv kvs)
  | null => simp [get_secret, h]
  | bool b => simp [get_secret, h]
  | int n => simp [get_secret, h]
  | str s2 => simp [get_secret, h]
  | list xs => simp [get_secret, h]
  | bytes bs => simp [get_secret, h]

/-- C9 witness: the payload `5` decodes as the integer 5 and yields
`None`. -/
theorem get_secret_non_object_none_witness :
    get_secret (.ok (.withSecretString "5")) = none :=
  get_secret_non_object_none "5" (PyVal.int 5) rfl
    (fun _ h => PyVal.noConfusion h)

/-- C2: when the probe succeeds and the update call fails with a
"No updates are to be performed" message, the run is classified
`unchanged` and still returns the role map (not `None`). -/
theorem update_noop_returns_role_map :
    ∀ (env : CFCalls) (e : String), env.describe_stacks = .ok () →
      env.update_stack = .error e →
      strContains e "No updates are to be performed" = true →
      create_or_update_cf_stack env = (Outcome.unchanged, fetch_roles env)
      ∧ ∀ rs, env.describe_stack_resources = .ok rs →
          (create_or_update_cf_stack env).2 = some (extract_role_arns rs) := by
  intro env e h1 h2 h3
  have hmain : create_or_update_cf_stack env = (Outcome.unchanged, fetch_roles env) := by
    simp [create_or_update_cf_stack, h1, update_path, h2, h3]
  refine ⟨hmain, ?_⟩
  intro rs hrs
  rw [hmain]
  simp [fetch_roles, hrs]

/-- C2 witness: a second reconcile run against the service model with an
unchanged template hits exactly this situation and returns the role map. -/
theorem update_noop_returns_role_map_witness :
    create_or_update_cf_stack (cf_service_env (some "T") "T"
        [{ ResourceType := "AWS::IAM::Role", LogicalResourceId := "CodePipelineRole",
           PhysicalResourceId := "arn-role" }])
      = (Outcome.unchanged,
         fetch_roles (cf_service_env (some "T") "T"
           [{ ResourceType := "AWS::IAM::Role", LogicalResourceId := "CodePipelineRole",
              PhysicalResourceId := "arn-role" }])) :=
  (update_noop_returns_role_map _ "No updates are to be performed."
    rfl rfl rfl).1

/-- C3: a probe `ClientError` containing "does not exist" routes to the
create path; any other probe error yields `(fatal, None)` regardless of the
other call outcomes, so neither create nor update is attempted. -/
theorem probe_error_classification :
    ∀ (env : CFCalls) (e : String), env.describe_stacks = .error e →
      (strContains e "does not exist" = true →
        create_or_update_cf_stack env = create_path env)
      ∧ (strContains e "does not exist" = false →
        create_or_update_cf_stack env = (Outcome.fatal, none)) := by
  intro env e h
  constructor <;> intro hc <;> simp [create_or_update_cf_stack, h, hc]

/-- C3 witness: a "does not exist" probe error takes the create path; an
access-denied probe error is fatal. -/
theorem probe_error_classification_witness :
    create_or_update_cf_stack
        { describe_stacks := .error "Stack with id S does not exist",
          update_stack := .ok (), create_stack := .ok (),
          describe_stack_resources := .ok [] }
      = create_path
        { describe_stacks := .error "Stack with id S does not exist",
          update_stack := .ok (), create_stack := .ok (),
          describe_stack_resources := .ok [] }
    ∧ create_or_update_cf_stack
        { describe_stacks := .error "AccessDenied when calling DescribeStacks",
          update_stack := .ok (), create_stack := .ok (),
          describe_stack_resources := .ok [] }
      = (Outcome.fatal, none) :=
  ⟨(probe_error_classification _ "Stack with id S does not exist" rfl).1 rfl,
   (probe_error_classification _ "AccessDenied when calling DescribeStacks" rfl).2 rfl⟩

/-- C4: when logical ids are distinct (as CloudFormation guarantees), the
extracted role map has exactly the `AWS::IAM::Role` entries, in order,
keyed by logical id and mapping to physical id. -/
theorem extract_role_arns_spec :
    ∀ rs : List StackResource,
      ((rs.filter (fun r => r.ResourceType == "AWS::IAM::Role")).map
          (fun r => r.LogicalResourceId)).Nodup →
      extract_role_arns rs
        = (rs.filter (fun r => r.ResourceType == "AWS::IAM::Role")).map
            (fun r => (r.LogicalResourceId, r.PhysicalResourceId)) := by
  intro rs hnd
  have h := extract_role_arns_go rs [] (by intro r _ _ p hp; cases hp) hnd
  simpa [extract_role_arns] using h

/-- C4 witness: one IAM role and one S3 bucket produce a one-entry map keyed
by the role's logical id. -/
theorem extract_role_arns_spec_witness :
    extract_role_arns
        [{ ResourceType := "AWS::IAM::Role", LogicalResourceId := "CodePipelineRole",
           PhysicalResourceId := "MyCICDProjectStack-CodePipelineRole-X" },
         { ResourceType := "AWS::S3::Bucket", LogicalResourceId := "ArtifactBucket",
           PhysicalResourceId := "cicd-artifact-bucket" }]
      = [("CodePipelineRole", "MyCICDProjectStack-CodePipelineRole-X")] := by
  have h := extract_role_arns_spec
    [{ ResourceType := "AWS::IAM::Role", LogicalResourceId := "CodePipelineRole",
       PhysicalResourceId := "MyCICDProjectStack-CodePipelineRole-X" },
     { ResourceType := "AWS::S3::Bucket", LogicalResourceId := "ArtifactBucket",
       PhysicalResourceId := "cicd-artifact-bucket" }] (by decide)
  simpa using h

/-- C5: when the function already exists (create raises
`ResourceConflictException`), the block updates code and configuration as
two separate calls, and the new environment fully replaces the old one; a
redeploy after a first deploy has environment exactly the second call's
variables. -/
theorem deploy_lambda_update_in_place :
    ∀ (f0 : LambdaFn) (roleArn : String) (code2 : List Nat)
      (env2 : List (String × String)),
      deploy_lambda (some f0) roleArn code2 env2
        = (some { f0 with Code := code2, Environment := env2 },
           [LambdaCall.create_function, LambdaCall.update_function_code,
            LambdaCall.update_function_configuration])
      ∧ (deploy_lambda (some f0) roleArn code2 env2).1.map
          (fun f => f.Environment) = some env2
      ∧ ∀ (code1 : List Nat) (env1 : List (String × String)),
          (deploy_lambda (deploy_lambda none roleArn code1 env1).1
              roleArn code2 env2).1.map (fun f => f.Environment) = some env2 := by
  intro f0 roleArn code2 env2
  exact ⟨rfl, rfl, fun code1 env1 => rfl⟩

/-- C6: running each reconciler a second time against the service model
with identical desired state yields `unchanged`: the stack update no-ops,
the existing CodeBuild role is returned without re-creation, and the
existing Lambda role is fetched after the create conflict. -/
theorem reconcile_idempotent :
    (∀ (st : Option String) (tb : String) (rs1 rs2 : List StackResource),
        (reconcile_stack (reconcile_stack st tb rs1).1 tb rs2).2.1
          = Outcome.unchanged)
    ∧ (∀ (st : Option String) (a1 a2 : String),
        (ensure_codebuild_role (ensure_codebuild_role st a1).1 a2).2.2
          = Outcome.unchanged)
    ∧ (∀ (st : Option String) (a1 a2 : String),
        (lambda_role_setup (lambda_role_setup st a1).1 a2).2.2
          = Outcome.unchanged) := by
  refine ⟨?_, ?_, ?_⟩
  · intro st tb rs1 rs2
    have hnoop : strContains "No updates are to be performed."
        "No updates are to be performed" = true := rfl
    simp [reconcile_stack, cf_service_env, create_or_update_cf_stack,
      cf_describe_stacks, update_path, cf_update_stack, hnoop]
  · intro st a1 a2
    cases st <;> rfl
  · intro st a1 a2
    cases st <;> rfl

/-- C7 (spec-modelled): the §4.3 stage-chain validator rejects the pipeline
whose Build stage declares the never-produced input artifact "Missing"
with `InvalidPipelineTopology` and issues no remote call, while the
source's actual pipeline topology passes validation. -/
theorem pipeline_topology_validation :
    create_codepipeline_validated pipeline_stages_missing
        = (.error "InvalidPipelineTopology", [])
    ∧ validate_pipeline pipeline_stages = .ok () :=
  ⟨rfl, rfl⟩

/-- C8 (amended): in the script's call order, route creation comes after
integration creation but before deployment creation, which precedes stage
creation. -/
theorem api_route_order :
    api_call_order.indexOf ApiCall.create_integration
        < api_call_order.indexOf ApiCall.create_route
    ∧ api_call_order.indexOf ApiCall.create_route
        < api_call_order.indexOf ApiCall.create_deployment
    ∧ api_call_order.indexOf ApiCall.create_deployment
        < api_call_order.indexOf ApiCall.create_stage := by
  decide

/-- C8 counterexample: it is not the case that route creation follows
integration, deployment and stage creation — the route is created before
the deployment and the stage. -/
theorem api_route_order_counterexample :
    ¬ (api_call_order.indexOf ApiCall.create_integration
          < api_call_order.indexOf ApiCall.create_route
       ∧ api_call_order.indexOf ApiCall.create_deployment
          < api_call_order.indexOf ApiCall.create_route
       ∧ api_call_order.indexOf ApiCall.create_stage
          < api_call_order.indexOf ApiCall.create_route) := by
  decide

/-- C10 (amended): when the retrieved secret is usable (not falsy), bucket,
application, project and deployment-group creation are attempted and their
failures do not prevent the pipeline-creation attempt; when the secret is
falsy (`None` or an empty value, per the `if not github_token:` guard),
the run exits with status 1 before any of those steps. -/
theorem main_sequence_error_handling :
    ∀ env : MainEnv,
      (secret_missing (get_secret env.secret_response) = false →
        main_trace env
          = [(MainStep.ensure_role, true), (MainStep.get_secret_step, true),
             (MainStep.create_bucket, step_ok env.create_bucket),
             (MainStep.create_application, step_ok env.create_application),
             (MainStep.create_project, step_ok env.create_project),
             (MainStep.create_deployment_group, step_ok env.create_deployment_group),
             (MainStep.create_pipeline_step, step_ok env.create_pipeline_call)])
      ∧ (secret_missing (get_secret env.secret_response) = true →
        main_trace env
          = [(MainStep.ensure_role, true), (MainStep.get_secret_step, false),
             (MainStep.exit_1, true)]) := by
  intro env
  constructor <;> intro h <;> simp [main_trace, h]

/-- C10 witness: with a usable token and all four intermediate creates
failing, pipeline creation is still attempted. -/
theorem main_sequence_error_handling_witness :
    main_trace
        { codebuild_role_state := none, codebuild_role_new_arn := "arn",
          secret_response := .ok (.withSecretString "tok"),
          create_bucket := .error "denied", create_application := .error "denied",
          create_project := .error "denied", create_deployment_group := .error "denied",
          create_pipeline_call := .ok () }
      = [(MainStep.ensure_role, true), (MainStep.get_secret_step, true),
         (MainStep.create_bucket, false), (MainStep.create_application, false),
         (MainStep.create_project, false), (MainStep.create_deployment_group, false),
         (MainStep.create_pipeline_step, true)] :=
  (main_sequence_error_handling _).1 rfl

/-- C10 counterexample: the payload `""` makes `get_secret` return the
empty string — not `None` — yet the run still exits with status 1 before
pipeline creation, so `None` is not the only aborting condition. -/
theorem main_sequence_counterexample :
    get_secret (Except.ok (SecretValueResponse.withSecretString ""))
        = some (PyVal.str "")
    ∧ get_secret (Except.ok (SecretValueResponse.withSecretString "")) ≠ none
    ∧ main_trace
        { codebuild_role_state := none, codebuild_role_new_arn := "arn",
          secret_response := .ok (.withSecretString ""),
          create_bucket := .ok (), create_application := .ok (),
          create_project := .ok (), create_deployment_group := .ok (),
          create_pipeline_call := .ok () }
        = [(MainStep.ensure_role, true), (MainStep.get_secret_step, false),
           (MainStep.exit_1, true)] := by
  refine ⟨rfl, ?_, rfl⟩
  intro h
  rw [show get_secret (Except.ok (SecretValueResponse.withSecretString ""))
      = some (PyVal.str "") from rfl] at h
  exact Option.noConfusion h
